import Mathlib

/-!
A shallow embedding of the retry core of the sequential-http-utils library:
the backoff policy `RetryConfig` (src/lib/retry-config.js) and the retrying
executor `fetchWithRetry` (src/lib/fetch-retry.js).

Modelling conventions: JavaScript numbers that take part in real arithmetic
(delays, the backoff multiplier, the jitter fraction, the uniform random
draw) are rationals; attempt counters and HTTP status codes are naturals;
a JS `null`/`undefined` argument is `Option.none`; JS truthiness tests are
spelled out at each place the source relies on them.
-/

namespace SeqHttpUtils

/-- The configuration fields of `RetryConfig` (retry-config.js, constructor,
lines 2-10). -/
structure RetryConfig where
  maxRetries : ℕ
  initialDelayMs : ℚ
  maxDelayMs : ℚ
  backoffMultiplier : ℚ
  jitterFraction : ℚ
  retryableStatusCodes : List ℕ
  retryableErrors : List String

/-- The constructor defaults of `RetryConfig` (retry-config.js lines 3-9). -/
def defaultRetryConfig : RetryConfig where
  maxRetries := 3
  initialDelayMs := 1000
  maxDelayMs := 30000
  backoffMultiplier := 2
  jitterFraction := 1/10
  retryableStatusCodes := [408, 429, 500, 502, 503, 504]
  retryableErrors := ["ECONNREFUSED", "ENOTFOUND", "ETIMEDOUT"]

/-- A transport-level failure: a JS error object carrying an optional
string `code` and a `message`. -/
structure Failure where
  code : Option String
  message : String
deriving DecidableEq

/-- `const errorCode = error.code || error.message || ''`
(retry-config.js line 18).  JS `||` falls through on a falsy operand, so an
absent or empty `code` selects `message`; an empty `message` then leaves the
empty string, which is also what `if message = ""` returns here. -/
def errorCodeOf (e : Failure) : String :=
  match e.code with
  | some c => if c = "" then e.message else c
  | none => e.message

/-- `p` is a prefix of `s`, character by character (helper for the JS
`String.prototype.includes` substring test). -/
def listStarts : List Char → List Char → Bool
  | _, [] => true
  | [], _ :: _ => false
  | c :: cs, p :: ps => (c == p) && listStarts cs ps

/-- `pat` occurs contiguously somewhere in `s` (helper for the JS
`String.prototype.includes` substring test). -/
def listIncludes : List Char → List Char → Bool
  | [], pat => pat.isEmpty
  | c :: cs, pat => listStarts (c :: cs) pat || listIncludes cs pat

/-- `s.includes(pat)`: case-sensitive contiguous substring containment,
exactly the JS `String.prototype.includes` used at retry-config.js line 19. -/
def strIncludes (s pat : String) : Bool :=
  listIncludes s.toList pat.toList

/-- `this.retryableErrors.some(code => errorCode.includes(code))`
(retry-config.js line 19). -/
def errorRetryable (c : RetryConfig) (e : Failure) : Bool :=
  c.retryableErrors.any fun marker => strIncludes (errorCodeOf e) marker

/-- `RetryConfig.shouldRetry(statusCode, error, attemptNumber)`
(retry-config.js lines 12-27).  The budget test `attemptNumber >=
this.maxRetries` comes first (lines 13-15).  `if (error)` (line 17) is true
for every present error object.  `if (statusCode)` (line 22) is a JS
truthiness test on a number: it is false for `null` and also for the number
`0`, so a zero status falls through to the final `return false` (line 26). -/
def shouldRetry (c : RetryConfig) (statusCode : Option ℕ) (error : Option Failure)
    (attemptNumber : ℕ) : Bool :=
  if c.maxRetries ≤ attemptNumber then
    false
  else
    match error with
    | some e => errorRetryable c e
    | none =>
      match statusCode with
      | some s => if s = 0 then false else decide (s ∈ c.retryableStatusCodes)
      | none => false

/-- `RetryConfig.calculateDelay(attemptNumber)` (retry-config.js lines
29-37), with the fresh `Math.random()` draw made explicit as the argument
`rand`.  Reading the expression inside out:
`exponentialDelay = initialDelayMs * backoffMultiplier ^ attemptNumber`
(line 30), `cappedDelay = min exponentialDelay maxDelayMs` (line 31),
`jitterAmount = cappedDelay * jitterFraction` (line 33),
`jitter = (rand - 0.5) * 2 * jitterAmount` (line 34), and the result is
`Math.max(0, Math.floor(cappedDelay + jitter))` (line 36). -/
def calculateDelay (c : RetryConfig) (attemptNumber : ℕ) (rand : ℚ) : ℤ :=
  max 0
    ⌊min (c.initialDelayMs * c.backoffMultiplier ^ attemptNumber) c.maxDelayMs
      + (rand - 1/2) * 2
        * (min (c.initialDelayMs * c.backoffMultiplier ^ attemptNumber) c.maxDelayMs
            * c.jitterFraction)⌋

/-! ### Substring characterisation -/

theorem listStarts_iff (p : List Char) :
    ∀ s : List Char, listStarts s p = true ↔ ∃ t, s = p ++ t := by
  induction p with
  | nil =>
    intro s
    cases s <;> simp [listStarts]
  | cons q qs ih =>
    intro s
    cases s with
    | nil => simp [listStarts]
    | cons c cs =>
      simp [listStarts, ih cs]

theorem listIncludes_iff (p : List Char) :
    ∀ s : List Char, listIncludes s p = true ↔ ∃ pre suf, s = pre ++ (p ++ suf) := by
  intro s
  induction s with
  | nil =>
    cases p with
    | nil =>
      simp [listIncludes, List.isEmpty]
    | cons q qs =>
      simp [listIncludes, List.isEmpty]
  | cons c cs ih =>
    simp only [listIncludes, Bool.or_eq_true, listStarts_iff p (c :: cs), ih]
    constructor
    · rintro (⟨t, ht⟩ | ⟨pre, suf, h⟩)
      · exact ⟨[], t, by simpa using ht⟩
      · exact ⟨c :: pre, suf, by simp [h]⟩
    · rintro ⟨pre, suf, h⟩
      cases pre with
      | nil => exact Or.inl ⟨suf, by simpa using h⟩
      | cons d ds =>
        simp only [List.cons_append, List.cons.injEq] at h
        exact Or.inr ⟨ds, suf, h.2⟩

theorem strIncludes_iff (s pat : String) :
    strIncludes s pat = true ↔ ∃ pre suf, s.toList = pre ++ (pat.toList ++ suf) :=
  listIncludes_iff pat.toList s.toList

/-! ### Shared facts about `shouldRetry` -/

theorem shouldRetry_false_of_budget (c : RetryConfig) (statusCode : Option ℕ)
    (error : Option Failure) (i : ℕ) (h : c.maxRetries ≤ i) :
    shouldRetry c statusCode error i = false := by
  simp [shouldRetry, h]

theorem shouldRetry_err_true (c : RetryConfig) (e : Failure) (i : ℕ)
    (statusCode : Option ℕ) (hi : i < c.maxRetries)
    (hr : errorRetryable c e = true) :
    shouldRetry c statusCode (some e) i = true := by
  have hb : ¬ c.maxRetries ≤ i := by omega
  simp [shouldRetry, hb, hr]

theorem shouldRetry_err_false (c : RetryConfig) (e : Failure) (i : ℕ)
    (statusCode : Option ℕ) (hr : errorRetryable c e = false) :
    shouldRetry c statusCode (some e) i = false := by
  by_cases hb : c.maxRetries ≤ i <;> simp [shouldRetry, hb, hr]

/-! ### Claims about the policy -/

/-- Claim C1: for every policy configuration and every input shape (status
code present, transport failure present, or neither), once `attemptIndex ≥
maxRetries` the budget test at the top of `shouldRetry` yields `false`
without consulting the status or the failure, so a failure on the final
permitted attempt is never classified retryable. -/
theorem shouldRetry_budget_exhausted (c : RetryConfig) (statusCode : Option ℕ)
    (error : Option Failure) (i : ℕ) (h : c.maxRetries ≤ i) :
    shouldRetry c statusCode error i = false := by
  simp [shouldRetry, h]

theorem shouldRetry_budget_exhausted_witness :
    shouldRetry defaultRetryConfig (some 503) none 3 = false :=
  shouldRetry_budget_exhausted defaultRetryConfig (some 503) none 3 (by decide)

/-- Claim C4 (amended): for `attemptIndex < maxRetries`, no transport
failure and a present *nonzero* status code, `shouldRetry` returns `true`
iff the status is a member of `retryableStatusCodes`.  The restriction to
nonzero statuses is forced by the JS truthiness test `if (statusCode)`:
a present status `0` is treated like an absent one and yields `false`
even when `0` is a configured retryable status. -/
theorem shouldRetry_status_member_iff (c : RetryConfig) (s i : ℕ)
    (hi : i < c.maxRetries) (hs : s ≠ 0) :
    shouldRetry c (some s) none i = true ↔ s ∈ c.retryableStatusCodes := by
  have hb : ¬ c.maxRetries ≤ i := by omega
  simp [shouldRetry, hb, hs]

theorem shouldRetry_status_member_iff_witness :
    shouldRetry defaultRetryConfig (some 503) none 0 = true :=
  (shouldRetry_status_member_iff defaultRetryConfig 503 0 (by decide)
    (by decide)).mpr (by decide)

/-- A policy whose retryable status set contains `0`, used to exhibit the
JS-truthiness corner of the status test. -/
def statusZeroConfig : RetryConfig :=
  { defaultRetryConfig with maxRetries := 1, retryableStatusCodes := [0] }

/-- Claim C4, counterexample to the claim as stated: with `maxRetries = 1`
and `retryableStatusCodes = [0]`, the present status code `0` is a member of
`retryableStatusCodes` and `attemptIndex = 0 < maxRetries`, yet
`shouldRetry` returns `false` (the JS truthiness test `if (statusCode)`
treats the number `0` as absent), so "returns true iff the status is a
member" fails.  A real input of this shape exists: WHATWG fetch gives
opaque responses status `0`. -/
theorem shouldRetry_status_zero_cex :
    0 < statusZeroConfig.maxRetries ∧
    shouldRetry statusZeroConfig (some 0) none 0 = false ∧
    ¬ (shouldRetry statusZeroConfig (some 0) none 0 = true ↔
        0 ∈ statusZeroConfig.retryableStatusCodes) := by
  have h : shouldRetry statusZeroConfig (some 0) none 0 = false := by
    simp [shouldRetry, statusZeroConfig, defaultRetryConfig]
  refine ⟨by decide, h, ?_⟩
  rw [h]
  decide

/-- Claim C5: for `attemptIndex < maxRetries` and a present transport
failure, `shouldRetry` returns `true` iff the failure's code — or its
message when the code is absent or empty (`errorCodeOf`) — contains some
configured marker as a case-sensitive contiguous substring. -/
theorem shouldRetry_error_marker_iff (c : RetryConfig) (e : Failure) (i : ℕ)
    (hi : i < c.maxRetries) :
    shouldRetry c none (some e) i = true ↔
      ∃ m ∈ c.retryableErrors, ∃ pre suf,
        (errorCodeOf e).toList = pre ++ (m.toList ++ suf) := by
  have hb : ¬ c.maxRetries ≤ i := by omega
  simp only [shouldRetry, if_neg hb, errorRetryable, List.any_eq_true,
    strIncludes_iff]

theorem shouldRetry_error_marker_iff_witness :
    shouldRetry defaultRetryConfig none (some ⟨some "ECONNREFUSED", ""⟩) 0 = true :=
  (shouldRetry_error_marker_iff defaultRetryConfig ⟨some "ECONNREFUSED", ""⟩ 0
    (by decide)).mpr ⟨"ECONNREFUSED", by decide, [], [], by decide⟩

/-- Claim C6: with non-negative `initialDelayMs` and `maxDelayMs`, a
positive multiplier, `jitterFraction ∈ [0, 1]` and a draw `rand ∈ [0, 1)`,
`calculateDelay` is a non-negative integer bounded by
`maxDelayMs * (1 + jitterFraction)`. -/
theorem calculateDelay_bounds (c : RetryConfig) (n : ℕ) (rand : ℚ)
    (hInit : 0 ≤ c.initialDelayMs) (hMax : 0 ≤ c.maxDelayMs)
    (hMult : 0 < c.backoffMultiplier) (hJ0 : 0 ≤ c.jitterFraction)
    (hJ1 : c.jitterFraction ≤ 1) (hR0 : 0 ≤ rand) (hR1 : rand < 1) :
    0 ≤ calculateDelay c n rand ∧
      (calculateDelay c n rand : ℚ) ≤ c.maxDelayMs * (1 + c.jitterFraction) := by
  unfold calculateDelay
  set E := c.initialDelayMs * c.backoffMultiplier ^ n with hEdef
  set D := min E c.maxDelayMs with hDdef
  set J := (rand - 1/2) * 2 * (D * c.jitterFraction) with hJdef
  have hE : 0 ≤ E := mul_nonneg hInit (pow_nonneg (le_of_lt hMult) n)
  have hD0 : 0 ≤ D := le_min hE hMax
  have hDle : D ≤ c.maxDelayMs := min_le_right E c.maxDelayMs
  have hJA : 0 ≤ D * c.jitterFraction := mul_nonneg hD0 hJ0
  have hjit : J ≤ D * c.jitterFraction := by
    rw [hJdef]
    exact mul_le_of_le_one_left hJA (by linarith)
  have hD1 : D * (1 + c.jitterFraction) ≤ c.maxDelayMs * (1 + c.jitterFraction) :=
    mul_le_mul_of_nonneg_right hDle (by linarith)
  have hring : D * (1 + c.jitterFraction) = D + D * c.jitterFraction := by ring
  have hx : D + J ≤ c.maxDelayMs * (1 + c.jitterFraction) := by linarith
  have hM0 : (0 : ℚ) ≤ c.maxDelayMs * (1 + c.jitterFraction) :=
    mul_nonneg hMax (by linarith)
  refine ⟨le_max_left 0 _, ?_⟩
  rcases le_or_lt (⌊D + J⌋ : ℤ) 0 with h | h
  · rw [max_eq_left h]
    simpa using hM0
  · rw [max_eq_right h.le]
    exact le_trans (Int.floor_le (D + J)) hx

/-- The policy of spec scenario 1: `maxRetries = 3`, `initialDelay = 1000`,
multiplier `2`, `maxDelay = 30000`, `jitterFraction = 0`; remaining fields
are the constructor defaults. -/
def scenario1Config : RetryConfig where
  maxRetries := 3
  initialDelayMs := 1000
  maxDelayMs := 30000
  backoffMultiplier := 2
  jitterFraction := 0
  retryableStatusCodes := [408, 429, 500, 502, 503, 504]
  retryableErrors := ["ECONNREFUSED", "ENOTFOUND", "ETIMEDOUT"]

theorem calculateDelay_bounds_witness :
    0 ≤ calculateDelay scenario1Config 1 0 ∧
      (calculateDelay scenario1Config 1 0 : ℚ) ≤
        scenario1Config.maxDelayMs * (1 + scenario1Config.jitterFraction) :=
  calculateDelay_bounds scenario1Config 1 0 (by simp [scenario1Config])
    (by simp [scenario1Config]) (by simp [scenario1Config])
    (by simp [scenario1Config]) (by simp [scenario1Config]) (by simp)
    (by simp)

/-- Claim C9: under scenario 1's policy and for any value of the random
draw, `calculateDelay` is `1000`, `2000`, `4000` at attempts `0`, `1`, `2`,
and `30000` (capped at `maxDelayMs`) at attempt `5`. -/
theorem calculateDelay_scenario1 (rand : ℚ) :
    calculateDelay scenario1Config 0 rand = 1000 ∧
    calculateDelay scenario1Config 1 rand = 2000 ∧
    calculateDelay scenario1Config 2 rand = 4000 ∧
    calculateDelay scenario1Config 5 rand = 30000 := by
  simp only [calculateDelay, scenario1Config, mul_zero, add_zero]
  refine ⟨?_, ?_, ?_, ?_⟩ <;> norm_num [min_def, max_def]

theorem calculateDelay_scenario1_witness :
    calculateDelay scenario1Config 0 (1/2) = 1000 ∧
    calculateDelay scenario1Config 1 (1/2) = 2000 ∧
    calculateDelay scenario1Config 2 (1/2) = 4000 ∧
    calculateDelay scenario1Config 5 (1/2) = 30000 :=
  calculateDelay_scenario1 (1/2)

/-! ### The retrying executor (src/lib/fetch-retry.js) -/

/-- A response descriptor; only `status` matters to the retry core. -/
structure Response where
  status : ℕ
deriving DecidableEq

/-- `response.ok` of a WHATWG fetch response: the status lies in the 2xx
success range `[200, 299]` (checked at fetch-retry.js line 23). -/
def Response.ok (r : Response) : Bool :=
  decide (200 ≤ r.status ∧ r.status ≤ 299)

/-- One call of the attempt capability: `await fetch(url, options)`
(fetch-retry.js line 20) either resolves with a response or rejects with a
transport failure. -/
inductive AttemptOutcome
  | resp (r : Response)
  | err (e : Failure)
deriving DecidableEq

/-- Observable events of one executor run, in order: `sleepEv d` records the
`await sleep(config.calculateDelay(d))` performed before a retry attempt
(fetch-retry.js lines 14-17; the recorded value is the argument passed to
`calculateDelay`), and `attemptEv i` records the `fetch` call of attempt
`i`. -/
inductive Ev
  | sleepEv (delayArg : ℕ)
  | attemptEv (idx : ℕ)
deriving DecidableEq

/-- How `fetchWithRetry` terminated, tagged by the program point of the
`return`/`throw` in fetch-retry.js. -/
inductive FetchOutcome
  | okResponse (r : Response) -- `return response` when `response.ok` (line 24)
  | finalResponse (r : Response) -- `return response` when not retried (line 28)
  | thrownError (e : Failure) -- `throw error` when not retried (line 34)
  | exhaustedResponse (r : Response) -- post-loop `return lastResponse` (line 40)
  | exhaustedError (e : Failure) -- post-loop `throw lastError` (line 43)
  | exhaustedGeneric -- post-loop `new Error('Fetch failed after all retries')` (line 43)
deriving DecidableEq

/-- `true` exactly on the outcomes produced inside the attempt loop
(fetch-retry.js lines 13-37), `false` on the post-loop ones (lines 39-43). -/
def FetchOutcome.fromLoop : FetchOutcome → Bool
  | FetchOutcome.okResponse _ => true
  | FetchOutcome.finalResponse _ => true
  | FetchOutcome.thrownError _ => true
  | FetchOutcome.exhaustedResponse _ => false
  | FetchOutcome.exhaustedError _ => false
  | FetchOutcome.exhaustedGeneric => false

/-- The full observable behaviour of one `fetchWithRetry` run. -/
structure FetchTrace where
  events : List Ev
  outcome : FetchOutcome
deriving DecidableEq

/-- The events of loop iteration `attempt`: the conditional inter-attempt
sleep of fetch-retry.js lines 14-17 — present exactly when `attempt > 0`,
with `calculateDelay` applied to `attempt - 1` — followed by the `fetch`
call of line 20. -/
def evBlock (attempt : ℕ) : List Ev :=
  (if 0 < attempt then [Ev.sleepEv (attempt - 1)] else []) ++ [Ev.attemptEv attempt]

/-- The attempt loop of `fetchWithRetry` (fetch-retry.js lines 13-43).
`fuel` counts the loop iterations still permitted by the condition
`attempt <= config.maxRetries`, so the loop invariant is
`attempt + fuel = config.maxRetries + 1`; `fuel = 0` is the loop condition
failing, after which the post-loop code of lines 39-43 runs on the recorded
`lastResponse`/`lastError`.  In each iteration: on a response, `lastResponse`
is recorded (line 21), a 2xx response returns at once (lines 23-25), a
non-retryable status returns the response (lines 27-29), otherwise the loop
continues; on a failure, `lastError` is recorded (line 31), a non-retryable
failure is rethrown (lines 33-35), otherwise the loop continues. -/
def fetchGo (c : RetryConfig) (attempts : ℕ → AttemptOutcome) :
    ℕ → ℕ → Option Failure → Option Response → FetchTrace
  | 0, _, lastError, lastResponse =>
    { events := []
      outcome :=
        match lastResponse with
        | some r => FetchOutcome.exhaustedResponse r
        | none =>
          match lastError with
          | some e => FetchOutcome.exhaustedError e
          | none => FetchOutcome.exhaustedGeneric }
  | fuel + 1, attempt, lastError, lastResponse =>
    match attempts attempt with
    | AttemptOutcome.resp r =>
      if r.ok then
        { events := evBlock attempt, outcome := FetchOutcome.okResponse r }
      else if shouldRetry c (some r.status) none attempt then
        let rest := fetchGo c attempts fuel (attempt + 1) lastError (some r)
        { events := evBlock attempt ++ rest.events, outcome := rest.outcome }
      else
        { events := evBlock attempt, outcome := FetchOutcome.finalResponse r }
    | AttemptOutcome.err e =>
      if shouldRetry c none (some e) attempt then
        let rest := fetchGo c attempts fuel (attempt + 1) (some e) lastResponse
        { events := evBlock attempt ++ rest.events, outcome := rest.outcome }
      else
        { events := evBlock attempt, outcome := FetchOutcome.thrownError e }

/-- `fetchWithRetry(url, options, retryConfig)` (fetch-retry.js lines 7-44):
the loop starts at attempt `0` with no recorded response or failure and a
budget of `config.maxRetries + 1` iterations.  The URL and options are
opaque to the retry logic and live inside the attempt capability
`attempts`. -/
def fetchWithRetry (c : RetryConfig) (attempts : ℕ → AttemptOutcome) : FetchTrace :=
  fetchGo c attempts (c.maxRetries + 1) 0 none none

/-- The event list of a run of `n` attempts starting at attempt index `a`:
one block per attempt, each block its conditional sleep followed by its
`fetch` call. -/
def canonicalEvents (a n : ℕ) : List Ev :=
  ((List.range' a n).map evBlock).flatten

/-- Distinguishes `fetch`-call events from sleep events. -/
def isAttemptEv : Ev → Bool
  | Ev.attemptEv _ => true
  | Ev.sleepEv _ => false

/-- The number of `fetch` calls (physical attempts) recorded in an event
list. -/
def attemptsIn (evs : List Ev) : ℕ :=
  (evs.filter isAttemptEv).length

/-! ### Facts about events and the canonical schedule -/

theorem attemptsIn_append (xs ys : List Ev) :
    attemptsIn (xs ++ ys) = attemptsIn xs + attemptsIn ys := by
  simp [attemptsIn, List.filter_append]

theorem attemptsIn_evBlock (a : ℕ) : attemptsIn (evBlock a) = 1 := by
  by_cases h : 0 < a <;> simp [evBlock, attemptsIn, isAttemptEv, h]

theorem canonicalEvents_zero (a : ℕ) : canonicalEvents a 0 = [] := by
  simp [canonicalEvents]

theorem canonicalEvents_succ (a n : ℕ) :
    canonicalEvents a (n + 1) = evBlock a ++ canonicalEvents (a + 1) n := by
  simp [canonicalEvents, List.range'_succ]

theorem canonicalEvents_one (a : ℕ) : canonicalEvents a 1 = evBlock a := by
  rw [canonicalEvents_succ, canonicalEvents_zero, List.append_nil]

theorem attemptsIn_canonical (n : ℕ) :
    ∀ a, attemptsIn (canonicalEvents a n) = n := by
  induction n with
  | zero => intro a; simp [canonicalEvents_zero, attemptsIn]
  | succ k ih =>
    intro a
    rw [canonicalEvents_succ, attemptsIn_append, attemptsIn_evBlock, ih]
    omega

/-! ### Facts about the attempt loop -/

/-- One-step reduction: 2xx response, `return response` (line 24). -/
theorem fetchGo_step_ok (c : RetryConfig) (attempts : ℕ → AttemptOutcome)
    (fuel a : ℕ) (le : Option Failure) (lr : Option Response) (r : Response)
    (hA : attempts a = AttemptOutcome.resp r) (hok : r.ok = true) :
    fetchGo c attempts (fuel + 1) a le lr =
      { events := evBlock a, outcome := FetchOutcome.okResponse r } := by
  simp [fetchGo, hA, hok]

/-- One-step reduction: retryable unsuccessful response, loop continues. -/
theorem fetchGo_step_resp_retry (c : RetryConfig) (attempts : ℕ → AttemptOutcome)
    (fuel a : ℕ) (le : Option Failure) (lr : Option Response) (r : Response)
    (hA : attempts a = AttemptOutcome.resp r) (hok : r.ok = false)
    (hsr : shouldRetry c (some r.status) none a = true) :
    fetchGo c attempts (fuel + 1) a le lr =
      { events := evBlock a ++ (fetchGo c attempts fuel (a + 1) le (some r)).events,
        outcome := (fetchGo c attempts fuel (a + 1) le (some r)).outcome } := by
  simp [fetchGo, hA, hok, hsr]

/-- One-step reduction: non-retryable unsuccessful response,
`return response` (line 28). -/
theorem fetchGo_step_resp_final (c : RetryConfig) (attempts : ℕ → AttemptOutcome)
    (fuel a : ℕ) (le : Option Failure) (lr : Option Response) (r : Response)
    (hA : attempts a = AttemptOutcome.resp r) (hok : r.ok = false)
    (hsr : shouldRetry c (some r.status) none a = false) :
    fetchGo c attempts (fuel + 1) a le lr =
      { events := evBlock a, outcome := FetchOutcome.finalResponse r } := by
  simp [fetchGo, hA, hok, hsr]

/-- One-step reduction: retryable transport failure, loop continues. -/
theorem fetchGo_step_err_retry (c : RetryConfig) (attempts : ℕ → AttemptOutcome)
    (fuel a : ℕ) (le : Option Failure) (lr : Option Response) (e : Failure)
    (hA : attempts a = AttemptOutcome.err e)
    (hsr : shouldRetry c none (some e) a = true) :
    fetchGo c attempts (fuel + 1) a le lr =
      { events := evBlock a ++ (fetchGo c attempts fuel (a + 1) (some e) lr).events,
        outcome := (fetchGo c attempts fuel (a + 1) (some e) lr).outcome } := by
  simp [fetchGo, hA, hsr]

/-- One-step reduction: non-retryable transport failure, `throw error`
(line 34). -/
theorem fetchGo_step_err_throw (c : RetryConfig) (attempts : ℕ → AttemptOutcome)
    (fuel a : ℕ) (le : Option Failure) (lr : Option Response) (e : Failure)
    (hA : attempts a = AttemptOutcome.err e)
    (hsr : shouldRetry c none (some e) a = false) :
    fetchGo c attempts (fuel + 1) a le lr =
      { events := evBlock a, outcome := FetchOutcome.thrownError e } := by
  simp [fetchGo, hA, hsr]

theorem fetchGo_events_canonical (c : RetryConfig) (attempts : ℕ → AttemptOutcome) :
    ∀ fuel a le lr,
      (fetchGo c attempts fuel a le lr).events =
        canonicalEvents a (attemptsIn (fetchGo c attempts fuel a le lr).events) := by
  intro fuel
  induction fuel with
  | zero =>
    intro a le lr
    simp [fetchGo, attemptsIn, canonicalEvents_zero]
  | succ k ih =>
    intro a le lr
    rcases hA : attempts a with r | e
    · cases hok : r.ok with
      | true =>
        rw [fetchGo_step_ok c attempts k a le lr r hA hok]
        dsimp only
        rw [attemptsIn_evBlock, canonicalEvents_one]
      | false =>
        cases hsr : shouldRetry c (some r.status) none a with
        | true =>
          rw [fetchGo_step_resp_retry c attempts k a le lr r hA hok hsr]
          dsimp only
          rw [attemptsIn_append, attemptsIn_evBlock, Nat.add_comm 1,
            canonicalEvents_succ]
          exact congrArg (evBlock a ++ ·) (ih (a + 1) le (some r))
        | false =>
          rw [fetchGo_step_resp_final c attempts k a le lr r hA hok hsr]
          dsimp only
          rw [attemptsIn_evBlock, canonicalEvents_one]
    · cases hsr : shouldRetry c none (some e) a with
      | true =>
        rw [fetchGo_step_err_retry c attempts k a le lr e hA hsr]
        dsimp only
        rw [attemptsIn_append, attemptsIn_evBlock, Nat.add_comm 1,
          canonicalEvents_succ]
        exact congrArg (evBlock a ++ ·) (ih (a + 1) (some e) lr)
      | false =>
        rw [fetchGo_step_err_throw c attempts k a le lr e hA hsr]
        dsimp only
        rw [attemptsIn_evBlock, canonicalEvents_one]

theorem fetchGo_exits_in_loop (c : RetryConfig) (attempts : ℕ → AttemptOutcome) :
    ∀ fuel a le lr, a + fuel = c.maxRetries + 1 → 1 ≤ fuel →
      (fetchGo c attempts fuel a le lr).outcome.fromLoop = true ∧
      attemptsIn (fetchGo c attempts fuel a le lr).events ≤ fuel := by
  intro fuel
  induction fuel with
  | zero =>
    intro a le lr hsum h1
    omega
  | succ k ih =>
    intro a le lr hsum h1
    rcases hA : attempts a with r | e
    · cases hok : r.ok with
      | true =>
        rw [fetchGo_step_ok c attempts k a le lr r hA hok]
        exact ⟨rfl, by rw [attemptsIn_evBlock]; omega⟩
      | false =>
        cases hsr : shouldRetry c (some r.status) none a with
        | true =>
          have hlt : a < c.maxRetries := by
            by_contra hge
            rw [shouldRetry_false_of_budget c _ _ a (by omega)] at hsr
            exact Bool.false_ne_true hsr
          have hrec := ih (a + 1) le (some r) (by omega) (by omega)
          rw [fetchGo_step_resp_retry c attempts k a le lr r hA hok hsr]
          refine ⟨hrec.1, ?_⟩
          dsimp only
          rw [attemptsIn_append, attemptsIn_evBlock]
          omega
        | false =>
          rw [fetchGo_step_resp_final c attempts k a le lr r hA hok hsr]
          exact ⟨rfl, by rw [attemptsIn_evBlock]; omega⟩
    · cases hsr : shouldRetry c none (some e) a with
      | true =>
        have hlt : a < c.maxRetries := by
          by_contra hge
          rw [shouldRetry_false_of_budget c _ _ a (by omega)] at hsr
          exact Bool.false_ne_true hsr
        have hrec := ih (a + 1) (some e) lr (by omega) (by omega)
        rw [fetchGo_step_err_retry c attempts k a le lr e hA hsr]
        refine ⟨hrec.1, ?_⟩
        dsimp only
        rw [attemptsIn_append, attemptsIn_evBlock]
        omega
      | false =>
        rw [fetchGo_step_err_throw c attempts k a le lr e hA hsr]
        exact ⟨rfl, by rw [attemptsIn_evBlock]; omega⟩

theorem fetchGo_ok_only (c : RetryConfig) (attempts : ℕ → AttemptOutcome) :
    ∀ fuel a le lr r2,
      (fetchGo c attempts fuel a le lr).outcome = FetchOutcome.okResponse r2 →
      r2.ok = true := by
  intro fuel
  induction fuel with
  | zero =>
    intro a le lr r2 h
    rcases lr with _ | r <;> rcases le with _ | e <;> simp [fetchGo] at h
  | succ k ih =>
    intro a le lr r2 h
    rcases hA : attempts a with r | e
    · cases hok : r.ok with
      | true =>
        rw [fetchGo_step_ok c attempts k a le lr r hA hok] at h
        simp only [FetchOutcome.okResponse.injEq] at h
        rw [← h]
        exact hok
      | false =>
        cases hsr : shouldRetry c (some r.status) none a with
        | true =>
          rw [fetchGo_step_resp_retry c attempts k a le lr r hA hok hsr] at h
          exact ih (a + 1) le (some r) r2 h
        | false =>
          rw [fetchGo_step_resp_final c attempts k a le lr r hA hok hsr] at h
          simp at h
    · cases hsr : shouldRetry c none (some e) a with
      | true =>
        rw [fetchGo_step_err_retry c attempts k a le lr e hA hsr] at h
        exact ih (a + 1) (some e) lr r2 h
      | false =>
        rw [fetchGo_step_err_throw c attempts k a le lr e hA hsr] at h
        simp at h

theorem fetchGo_all_resp (c : RetryConfig) (attempts : ℕ → AttemptOutcome)
    (r : Response) (hres : ∀ j, attempts j = AttemptOutcome.resp r)
    (hok : r.ok = false)
    (hsr : ∀ i, i < c.maxRetries → shouldRetry c (some r.status) none i = true) :
    ∀ fuel a le lr, a + fuel = c.maxRetries + 1 → 1 ≤ fuel →
      fetchGo c attempts fuel a le lr =
        { events := canonicalEvents a fuel,
          outcome := FetchOutcome.finalResponse r } := by
  intro fuel
  induction fuel with
  | zero =>
    intro a le lr hsum h1
    omega
  | succ k ih =>
    intro a le lr hsum h1
    by_cases hend : a = c.maxRetries
    · have hk0 : k = 0 := by omega
      subst hk0
      rw [fetchGo_step_resp_final c attempts 0 a le lr r (hres a) hok
        (shouldRetry_false_of_budget c _ _ a (by omega))]
      simp [canonicalEvents_one]
    · have hlt : a < c.maxRetries := by omega
      rw [fetchGo_step_resp_retry c attempts k a le lr r (hres a) hok (hsr a hlt)]
      rw [ih (a + 1) le (some r) (by omega) (by omega)]
      dsimp only
      rw [canonicalEvents_succ]

theorem fetchGo_all_err (c : RetryConfig) (attempts : ℕ → AttemptOutcome)
    (es : ℕ → Failure) (hes : ∀ j, attempts j = AttemptOutcome.err (es j))
    (hret : ∀ j, errorRetryable c (es j) = true) :
    ∀ fuel a le lr, a + fuel = c.maxRetries + 1 → 1 ≤ fuel →
      fetchGo c attempts fuel a le lr =
        { events := canonicalEvents a fuel,
          outcome := FetchOutcome.thrownError (es c.maxRetries) } := by
  intro fuel
  induction fuel with
  | zero =>
    intro a le lr hsum h1
    omega
  | succ k ih =>
    intro a le lr hsum h1
    by_cases hend : a = c.maxRetries
    · have hk0 : k = 0 := by omega
      subst hk0
      rw [fetchGo_step_err_throw c attempts 0 a le lr (es a) (hes a)
        (shouldRetry_false_of_budget c _ _ a (by omega))]
      simp [canonicalEvents_one, hend]
    · have hlt : a < c.maxRetries := by omega
      rw [fetchGo_step_err_retry c attempts k a le lr (es a) (hes a)
        (shouldRetry_err_true c (es a) a none hlt (hret a))]
      rw [ih (a + 1) (some (es a)) lr (by omega) (by omega)]
      dsimp only
      rw [canonicalEvents_succ]

theorem fetchGo_first_nonretryable (c : RetryConfig)
    (attempts : ℕ → AttemptOutcome) (es : ℕ → Failure)
    (hes : ∀ j, attempts j = AttemptOutcome.err (es j)) (i : ℕ)
    (hbefore : ∀ j, j < i → errorRetryable c (es j) = true)
    (hnr : errorRetryable c (es i) = false) :
    ∀ fuel a le lr, a + fuel = c.maxRetries + 1 → a ≤ i → i ≤ c.maxRetries →
      fetchGo c attempts fuel a le lr =
        { events := canonicalEvents a (i + 1 - a),
          outcome := FetchOutcome.thrownError (es i) } := by
  intro fuel
  induction fuel with
  | zero =>
    intro a le lr hsum hai hib
    omega
  | succ k ih =>
    intro a le lr hsum hai hib
    by_cases hend : a = i
    · subst hend
      rw [fetchGo_step_err_throw c attempts k a le lr (es a) (hes a)
        (shouldRetry_err_false c (es a) a none hnr)]
      have h1 : a + 1 - a = 1 := by omega
      simp [h1, canonicalEvents_one]
    · have hlt : a < i := by omega
      rw [fetchGo_step_err_retry c attempts k a le lr (es a) (hes a)
        (shouldRetry_err_true c (es a) a none (by omega) (hbefore a hlt))]
      rw [ih (a + 1) (some (es a)) lr (by omega) (by omega) hib]
      dsimp only
      have h2 : i + 1 - a = (i + 1 - (a + 1)) + 1 := by omega
      rw [h2, canonicalEvents_succ]

/-! ### Claims about the executor -/

/-- Claim C2: for a policy with `maxRetries = 2` whose `retryableStatusCodes`
contains `503`, if every attempt yields a status-503 response then
`fetchWithRetry` performs exactly 3 attempts, sleeping before the second and
third (with `calculateDelay` arguments `0` and `1`), and terminates by
*returning* the final 503 response through the non-retryable-status
`return response` of the loop (`FetchOutcome.finalResponse`), not by
raising a failure. -/
theorem fetchWithRetry_all_503 (c : RetryConfig) (r : Response)
    (hmax : c.maxRetries = 2) (h503 : 503 ∈ c.retryableStatusCodes)
    (hr : r.status = 503) :
    fetchWithRetry c (fun _ => AttemptOutcome.resp r) =
      { events := [Ev.attemptEv 0, Ev.sleepEv 0, Ev.attemptEv 1,
                   Ev.sleepEv 1, Ev.attemptEv 2],
        outcome := FetchOutcome.finalResponse r } := by
  have hok : r.ok = false := by simp [Response.ok, hr]
  have hsr : ∀ i, i < c.maxRetries → shouldRetry c (some r.status) none i = true := by
    intro i hi
    have hb : ¬ c.maxRetries ≤ i := by omega
    simp [shouldRetry, hb, hr, h503]
  have h := fetchGo_all_resp c _ r (fun _ => rfl) hok hsr (c.maxRetries + 1) 0
    none none (by omega) (by omega)
  rw [fetchWithRetry, h, hmax]
  have hc : canonicalEvents 0 (2 + 1) =
      [Ev.attemptEv 0, Ev.sleepEv 0, Ev.attemptEv 1, Ev.sleepEv 1,
       Ev.attemptEv 2] := by decide
  rw [hc]

/-- The scenario-4 policy: constructor defaults with `maxRetries = 2`. -/
def scenario4Config : RetryConfig :=
  { defaultRetryConfig with maxRetries := 2 }

theorem fetchWithRetry_all_503_witness :
    fetchWithRetry scenario4Config (fun _ => AttemptOutcome.resp ⟨503⟩) =
      { events := [Ev.attemptEv 0, Ev.sleepEv 0, Ev.attemptEv 1,
                   Ev.sleepEv 1, Ev.attemptEv 2],
        outcome := FetchOutcome.finalResponse ⟨503⟩ } :=
  fetchWithRetry_all_503 scenario4Config ⟨503⟩ rfl (by decide) rfl

/-- Claim C3: with every attempt raising a transport failure — first part:
if all failures before attempt `i` are retryable and attempt `i`'s failure
is classified non-retryable, the executor rethrows that failure immediately
after attempt `i`: exactly `i + 1` attempts, no sleep after the failure and
no further attempts (for `i = 0`, spec scenario 6, the trace is a single
`fetch` call and no sleep at all).  Second part: if every failure is
retryable, the executor performs exactly `maxRetries + 1` attempts and then
propagates the last failure (spec scenario 5). -/
theorem fetchWithRetry_transport_failures (c : RetryConfig)
    (attempts : ℕ → AttemptOutcome) (es : ℕ → Failure)
    (hes : ∀ j, attempts j = AttemptOutcome.err (es j)) :
    (∀ i, i ≤ c.maxRetries → (∀ j, j < i → errorRetryable c (es j) = true) →
      errorRetryable c (es i) = false →
      fetchWithRetry c attempts =
        { events := canonicalEvents 0 (i + 1),
          outcome := FetchOutcome.thrownError (es i) } ∧
      attemptsIn (fetchWithRetry c attempts).events = i + 1) ∧
    ((∀ j, errorRetryable c (es j) = true) →
      fetchWithRetry c attempts =
        { events := canonicalEvents 0 (c.maxRetries + 1),
          outcome := FetchOutcome.thrownError (es c.maxRetries) } ∧
      attemptsIn (fetchWithRetry c attempts).events = c.maxRetries + 1) := by
  constructor
  · intro i hi hbefore hnr
    have h := fetchGo_first_nonretryable c attempts es hes i hbefore hnr
      (c.maxRetries + 1) 0 none none (by omega) (by omega) hi
    have h0 : i + 1 - 0 = i + 1 := by omega
    rw [h0] at h
    rw [fetchWithRetry, h]
    exact ⟨rfl, attemptsIn_canonical (i + 1) 0⟩
  · intro hret
    have h := fetchGo_all_err c attempts es hes hret (c.maxRetries + 1) 0
      none none (by omega) (by omega)
    rw [fetchWithRetry, h]
    exact ⟨rfl, attemptsIn_canonical (c.maxRetries + 1) 0⟩

/-- Spec scenario 5's failure: code `ECONNREFUSED`, raised on every call. -/
def econnrefusedFailure : Failure :=
  ⟨some "ECONNREFUSED", "connect ECONNREFUSED 127.0.0.1:80"⟩

/-- Spec scenario 6's failure: code `EBADF`, not a configured marker. -/
def ebadfFailure : Failure :=
  ⟨some "EBADF", "bad file descriptor"⟩

theorem fetchWithRetry_transport_failures_witness :
    (fetchWithRetry defaultRetryConfig
        (fun _ => AttemptOutcome.err econnrefusedFailure)).outcome =
      FetchOutcome.thrownError econnrefusedFailure ∧
    fetchWithRetry defaultRetryConfig
        (fun _ => AttemptOutcome.err ebadfFailure) =
      { events := [Ev.attemptEv 0],
        outcome := FetchOutcome.thrownError ebadfFailure } := by
  constructor
  · have h := ((fetchWithRetry_transport_failures defaultRetryConfig _
      (fun _ => econnrefusedFailure) (fun _ => rfl)).2 (fun _ => by decide)).1
    rw [h]
  · have h := ((fetchWithRetry_transport_failures defaultRetryConfig _
      (fun _ => ebadfFailure) (fun _ => rfl)).1 0 (by decide)
      (fun j hj => absurd hj (Nat.not_lt_zero j)) (by decide)).1
    rw [h]
    decide

/-- Claim C7: the executor's event sequence is always canonical
(`canonicalEvents 0 n` for `n` the number of `fetch` calls made): attempt
`0` is not preceded by any sleep, and every attempt `i > 0` is immediately
preceded by exactly one sleep whose `calculateDelay` argument is `i - 1` —
the index of the previous attempt, not of the upcoming one. -/
theorem fetchWithRetry_delay_schedule (c : RetryConfig)
    (attempts : ℕ → AttemptOutcome) :
    (fetchWithRetry c attempts).events =
      canonicalEvents 0 (attemptsIn (fetchWithRetry c attempts).events) :=
  fetchGo_events_canonical c attempts (c.maxRetries + 1) 0 none none

theorem fetchWithRetry_delay_schedule_witness :
    (fetchWithRetry defaultRetryConfig
        (fun _ => AttemptOutcome.resp ⟨503⟩)).events =
      canonicalEvents 0
        (attemptsIn (fetchWithRetry defaultRetryConfig
          (fun _ => AttemptOutcome.resp ⟨503⟩)).events) :=
  fetchWithRetry_delay_schedule defaultRetryConfig
    (fun _ => AttemptOutcome.resp ⟨503⟩)

/-- Claim C8: if the first attempt yields a response with a 2xx status,
`fetchWithRetry` returns it immediately — exactly one attempt and zero
sleeps; moreover the `response.ok` early return is the sole exit that
produces `FetchOutcome.okResponse`, and it fires only on 2xx responses. -/
theorem fetchWithRetry_success_first (c : RetryConfig)
    (attempts : ℕ → AttemptOutcome) (r : Response)
    (h0 : attempts 0 = AttemptOutcome.resp r) (h200 : 200 ≤ r.status)
    (h299 : r.status ≤ 299) :
    fetchWithRetry c attempts =
      { events := [Ev.attemptEv 0], outcome := FetchOutcome.okResponse r } ∧
    ∀ (c2 : RetryConfig) (att2 : ℕ → AttemptOutcome) (r2 : Response),
      (fetchWithRetry c2 att2).outcome = FetchOutcome.okResponse r2 →
      r2.ok = true := by
  constructor
  · have hok : r.ok = true := by
      simp only [Response.ok, decide_eq_true_eq]
      exact ⟨h200, h299⟩
    rw [fetchWithRetry]
    simp only [fetchGo, h0]
    simp [hok, evBlock]
  · intro c2 att2 r2 h
    exact fetchGo_ok_only c2 att2 (c2.maxRetries + 1) 0 none none r2 h

theorem fetchWithRetry_success_first_witness :
    fetchWithRetry defaultRetryConfig (fun _ => AttemptOutcome.resp ⟨200⟩) =
      { events := [Ev.attemptEv 0], outcome := FetchOutcome.okResponse ⟨200⟩ } :=
  (fetchWithRetry_success_first defaultRetryConfig _ ⟨200⟩ rfl (by decide)
    (by decide)).1

/-- Claim C10: for every policy and attempt capability the executor's
outcome is produced inside the attempt loop at some attempt index
`≤ maxRetries` (at most `maxRetries + 1` `fetch` calls): on the final
permitted attempt `shouldRetry` is `false` by the budget check, so the loop
returns or rethrows there, and the post-loop code — `return lastResponse`,
`throw lastError`, or the generic exhaustion error — is never executed. -/
theorem fetchWithRetry_no_postloop (c : RetryConfig)
    (attempts : ℕ → AttemptOutcome) :
    (fetchWithRetry c attempts).outcome.fromLoop = true ∧
    attemptsIn (fetchWithRetry c attempts).events ≤ c.maxRetries + 1 :=
  fetchGo_exits_in_loop c attempts (c.maxRetries + 1) 0 none none
    (by omega) (by omega)

theorem fetchWithRetry_no_postloop_witness :
    (fetchWithRetry defaultRetryConfig
        (fun _ => AttemptOutcome.err econnrefusedFailure)).outcome.fromLoop = true ∧
    attemptsIn (fetchWithRetry defaultRetryConfig
        (fun _ => AttemptOutcome.err econnrefusedFailure)).events ≤
      defaultRetryConfig.maxRetries + 1 :=
  fetchWithRetry_no_postloop defaultRetryConfig
    (fun _ => AttemptOutcome.err econnrefusedFailure)

end SeqHttpUtils
